import Mathlib

/-!
Verification of the servicepoint-life cellular-automaton display program.

The Rust sources are embedded shallowly:

* `Grid` models the row-major 2-D containers `PixelGrid` (`Grid Bool`) and
  `ByteGrid` (`Grid Nat`, values kept in 0..255 by the operations) of the
  `servicepoint2` crate, with `get`/`set` addressing cell `(x, y)` at list
  index `x + y * width`.
* `count_neighbors`, `field_iteration`, `luma_iteration` and `step` embed the
  methods of `Game` in `src/game.rs`; randomness consumed by the Rust code
  (`thread_rng`) is passed in explicitly as draw parameters.
* the kernels, preset rules and the rule synthesizer embed `src/rules.rs`.
* `draw_pixels`, `draw_luma` and the divider update embed `src/main.rs`.
-/

namespace SPLife

/-- Row-major 2-D grid, modelling `servicepoint2::PixelGrid` (`α = Bool`) and
`servicepoint2::ByteGrid` (`α = Nat`). Cell `(x, y)` lives at index
`x + y * width` of `cells`. -/
structure Grid (α : Type) where
  width : Nat
  height : Nat
  cells : List α
deriving DecidableEq

/-- Models `Grid::get(x, y)`; out-of-range access (undefined in the source)
returns the default value of the cell type. -/
def Grid.get [Inhabited α] (g : Grid α) (x y : Nat) : α :=
  g.cells.getD (x + y * g.width) default

/-- Models `Grid::set(x, y, value)`; out-of-range writes are dropped. -/
def Grid.set (g : Grid α) (x y : Nat) (v : α) : Grid α :=
  { g with cells := g.cells.set (x + y * g.width) v }

/-- Well-formedness of a grid: the backing list covers exactly
`width * height` cells. -/
def Grid.WF (g : Grid α) : Prop := g.cells.length = g.width * g.height

instance (g : Grid α) : Decidable g.WF :=
  inferInstanceAs (Decidable (g.cells.length = g.width * g.height))

/-- Embeds `Game::count_neighbors` from `src/game.rs`: scan `nx` from
`x - 1` to `x + 1` and `ny` from `y - 1` to `y + 1` over signed coordinates,
skipping the cell itself, coordinates outside the grid, and dead cells. -/
def count_neighbors (g : Grid Bool) (x y : Nat) : Nat :=
  let xi : Int := x
  let yi : Int := y
  [xi - 1, xi, xi + 1].foldl (fun count nx =>
    [yi - 1, yi, yi + 1].foldl (fun count ny =>
      if nx = xi ∧ ny = yi then count
      else if nx < 0 ∨ ny < 0 ∨ nx ≥ (g.width : Int) ∨ ny ≥ (g.height : Int) then count
      else if Grid.get g nx.toNat ny.toNat = false then count
      else count + 1)
      count)
    0

/-- The eight Moore offsets around a cell, the center excluded. -/
def moore_offsets : List (Int × Int) :=
  [(-1, -1), (-1, 0), (-1, 1), (0, -1), (0, 1), (1, -1), (1, 0), (1, 1)]

/-- An offset contributes to the neighbor count of `(x, y)` iff the offset
cell lies inside the grid (no wraparound, no virtual border) and is alive. -/
def contributing (g : Grid Bool) (x y : Nat) (d : Int × Int) : Bool :=
  !(decide ((x : Int) + d.1 < 0 ∨ (y : Int) + d.2 < 0 ∨
      (x : Int) + d.1 ≥ (g.width : Int) ∨ (y : Int) + d.2 ≥ (g.height : Int))) &&
    Grid.get g ((x : Int) + d.1).toNat ((y : Int) + d.2).toNat

/-- The Moore offsets that actually contribute to the count at `(x, y)`. -/
def contributing_offsets (g : Grid Bool) (x y : Nat) : List (Int × Int) :=
  moore_offsets.filter (contributing g x y)

/-- The contribution of scan coordinate `(nx, ny)` to the neighbor count of
`(x, y)`: one loop iteration of `Game::count_neighbors` adds this amount. -/
def neighbor_indicator (g : Grid Bool) (x y : Nat) (nx ny : Int) : Nat :=
  if nx = (x : Int) ∧ ny = (y : Int) then 0
  else if nx < 0 ∨ ny < 0 ∨ nx ≥ (g.width : Int) ∨ ny ≥ (g.height : Int) then 0
  else if Grid.get g nx.toNat ny.toNat = false then 0
  else 1

/-- Embeds the `matches!((old_state, neighbors), (true, 2) | (true, 3) | (false, 3))`
transition hardcoded in `Game::field_iteration` (src/game.rs); `neighbors` is the
`u8` neighbor count. -/
def field_new_state (old_state : Bool) (neighbors : Nat) : Bool :=
  decide ((old_state = true ∧ neighbors = 2) ∨ (old_state = true ∧ neighbors = 3) ∨
    (old_state = false ∧ neighbors = 3))

/-- Embeds the `next_state` closure of `Rules::game_of_life` (src/rules.rs), the
same `matches!` over an `i32` neighbor sum. -/
def game_of_life_next_state (old_state : Bool) (neighbors : Int) : Bool :=
  decide ((old_state = true ∧ neighbors = 2) ∨ (old_state = true ∧ neighbors = 3) ∨
    (old_state = false ∧ neighbors = 3))

/-- Embeds `Game::field_iteration` (src/game.rs): clone the field, then for every
`x` and every `y` write the new state computed from the old field. -/
def field_iteration (g : Grid Bool) : Grid Bool :=
  (List.range g.width).foldl (fun next x =>
    (List.range g.height).foldl (fun next y =>
      Grid.set next x y (field_new_state (Grid.get g x y) (count_neighbors g x y))) next) g

/-- Embeds `i32::clamp(v, u8::MIN as i32, u8::MAX as i32) as u8`. -/
def clamp_to_byte (v : Int) : Nat := (max 0 (min 255 v)).toNat

/-- One inner-loop iteration of `Game::luma_iteration` (src/game.rs): read the
old value from the old grid, add the next random delta draw, clamp to a byte,
write into the accumulator grid, and consume the draw. -/
def luma_cell (g : Grid Nat) (x y : Nat) (acc : Grid Nat × List Int) : Grid Nat × List Int :=
  let old_value := Grid.get g x y
  let new_value := clamp_to_byte ((old_value : Int) + acc.2.headD 0)
  (Grid.set acc.1 x y new_value, acc.2.tail)

/-- Embeds `Game::luma_iteration` (src/game.rs). The random window position
`(window_x, window_y)` and size `(w, h)` drawn from `thread_rng`, and the
per-cell delta draws from `gen_range(-64..=64)`, are passed in explicitly;
the loops run `inner_y` over `0..h` and `inner_x` over `0..w`. -/
def luma_iteration (g : Grid Nat) (window_x window_y w h : Nat) (draws : List Int) : Grid Nat :=
  ((List.range h).foldl (fun acc inner_y =>
    (List.range w).foldl (fun acc inner_x =>
      luma_cell g (window_x + inner_x) (window_y + inner_y) acc) acc) (g, draws)).1

/-- The state of `Game` in src/game.rs: a boolean pixel field and a byte
luma grid. -/
structure Game where
  field : Grid Bool
  luma : Grid Nat
deriving DecidableEq

/-- Embeds `Game::step` (src/game.rs). The `rng.gen_ratio(1, 10)` draw is the
explicit `do_luma` argument, and the randomness consumed by `luma_iteration`
is passed through: the field always advances by `field_iteration`, the luma
grid is perturbed only when the 1-in-10 draw fires. -/
def step (game : Game) (do_luma : Bool) (window_x window_y w h : Nat)
    (draws : List Int) : Game :=
  { field := field_iteration game.field,
    luma := if do_luma then luma_iteration game.luma window_x window_y w h draws
            else game.luma }

/-- Write loop shared by the compositor drawing functions: for every in-range
`x` and `y` of the base grid, overwrite cell `(x, y)` with `f x y`. -/
def set_loop (base : Grid α) (f : Nat → Nat → α) : Grid α :=
  (List.range base.width).foldl (fun acc x =>
    (List.range base.height).foldl (fun acc y => Grid.set acc x y (f x y)) acc) base

/-- Embeds `draw_pixels` (src/main.rs): column `x` takes the left grid when
`x < split_index`, otherwise the right grid, and the cell is set when `x`
equals `split_index` or the chosen grid's cell is set. -/
def draw_pixels (pixels left right : Grid Bool) (split_index : Nat) : Grid Bool :=
  (List.range pixels.width).foldl (fun acc x =>
    let left_or_right := if x < split_index then left else right
    (List.range pixels.height).foldl (fun acc y =>
      Grid.set acc x y (decide (x = split_index) || Grid.get left_or_right x y)) acc) pixels

/-- Models the brightness transform of `draw_luma` (src/main.rs):
`set as f32 / u8::MAX as f32 * 12f32` followed by the truncating `as u8` cast.
For every input in 0..255 the exact rational value `v * 12 / 255` is at least
`1 / 85` away from the next integer unless it is an integer, while the two f32
rounding errors total well below that, so the truncated f32 result equals the
floor of the exact value, i.e. Nat division. -/
def luma_scale (v : Nat) : Nat := v * 12 / 255

/-- Embeds `draw_luma` (src/main.rs): column `x` takes the left grid when
`x < split_tile`, otherwise the right grid; every written value is
`max(48, value)` pushed through the brightness transform. -/
def draw_luma (luma left right : Grid Nat) (split_tile : Nat) : Grid Nat :=
  (List.range luma.width).foldl (fun acc x =>
    let left_or_right := if x < split_tile then left else right
    (List.range luma.height).foldl (fun acc y =>
      Grid.set acc x y (luma_scale (max 48 (Grid.get left_or_right x y)))) acc) luma

/-- The divider state of the main loop (src/main.rs): the current split pixel
column and the signed divider velocity. `swaps` is a ghost counter recording
how many swap/reseed events have fired; the source performs the swap, reseed
and rule resynthesis where the counter increments. -/
structure DividerState where
  split_pixel : Nat
  split_speed : Int
  swaps : Nat
deriving DecidableEq

/-- One tick of the divider logic in the main loop (src/main.rs lines 83-106):
first the edge check (swap sides, reseed, reset the index) and then the
clamped advance `split_pixel = clamp(split_pixel + split_speed, 0, width)`. -/
def divider_tick (width : Nat) (s : DividerState) : DividerState :=
  let s :=
    if s.split_speed > 0 ∧ s.split_pixel = width then
      { s with split_pixel := 0, swaps := s.swaps + 1 }
    else if s.split_speed < 0 ∧ s.split_pixel = 0 then
      { s with split_pixel := width, swaps := s.swaps + 1 }
    else s
  { s with split_pixel := (max 0 (min (width : Int) ((s.split_pixel : Int) + s.split_speed))).toNat }

/-- Embeds `MOORE_NEIGHBORHOOD` from src/rules.rs. -/
def MOORE_NEIGHBORHOOD : List (List Bool) :=
  [[true, true, true],
   [true, false, true],
   [true, true, true]]

/-- Embeds `NEUMANN_NEIGHBORHOOD` from src/rules.rs. -/
def NEUMANN_NEIGHBORHOOD : List (List Bool) :=
  [[false, true, false],
   [true, false, true],
   [false, true, false]]

/-- Embeds `DIAGONALS_NEIGHBORHOOD` from src/rules.rs. -/
def DIAGONALS_NEIGHBORHOOD : List (List Bool) :=
  [[true, false, true],
   [false, true, false],
   [true, false, true]]

/-- The center weight of a 3x3 kernel: entry `[1][1]`. -/
def kernel_center (kernel : List (List Bool)) : Bool :=
  (kernel.getD 1 []).getD 1 false

/-- The maximum neighbor count for the kernel chosen by the synthesizer
(`let max_neighbors = if is_moore { 8 } else { 4 }` in src/rules.rs). -/
def max_neighbors (is_moore : Bool) : Nat := if is_moore then 8 else 4

/-- Embeds `generate_neighbor_counts` (src/rules.rs): insert `count` random
draws, each from `gen_range(0..=count)`, into a set. The draw sequence is the
explicit `draws` list, consumed in order. -/
def generate_neighbor_counts (count : Nat) (draws : List Int) : Finset Int :=
  (List.range count).foldl (fun result i => insert (draws.getD i 0) result) ∅

/-- The data sampled by `Rules::generate_bb3` (src/rules.rs): the kernel choice
and the birth and survival neighbor-count sets. -/
structure RulesBB3 where
  is_moore : Bool
  birth : Finset Int
  survive : Finset Int
deriving DecidableEq

/-- Embeds the sampling in `Rules::generate_bb3` (src/rules.rs): the kernel
coin, the two set-size draws from `gen_range(1..=max_neighbors)` and the two
element draw sequences are explicit arguments. -/
def generate_bb3 (is_moore : Bool) (birth_count survive_count : Nat)
    (birth_draws survive_draws : List Int) : RulesBB3 :=
  { is_moore,
    birth := generate_neighbor_counts birth_count birth_draws,
    survive := generate_neighbor_counts survive_count survive_draws }

/-- The `next_state` closure built by `Rules::generate_bb3`. -/
def bb3_next_state (r : RulesBB3) (old_state : Bool) (neighbors : Int) : Bool :=
  old_state && decide (neighbors ∈ r.survive) ||
    !old_state && decide (neighbors ∈ r.birth)

/-- Embeds the `next_state` closure of `Rules::brians_brain` (src/rules.rs),
with `ALIVE = u8::MAX = 255`, `DYING = ALIVE / 2 = 127`, `DEAD = 0`; the match
arms are taken in order, the final arm catching every non-canonical state. -/
def brians_brain_next_state (state : Nat) (neighbors : Int) : Nat :=
  if state = 255 then 127
  else if state = 127 then 0
  else if state = 0 ∧ neighbors = 2 then 255
  else if state > 127 then 255
  else 0

/-- Test fixture: a 5x5 field whose only live cell is the center `(2, 2)`. -/
def single_live_5 : Grid Bool :=
  ⟨5, 5, List.replicate 12 false ++ [true] ++ List.replicate 12 false⟩

/-- Test fixture: the dead 5x5 field. -/
def dead_5 : Grid Bool := ⟨5, 5, List.replicate 25 false⟩

/-- Test fixture: a 6x6 field holding a 2x2 block of live cells at
`(2, 2)..(3, 3)`, the textbook block still life. -/
def block_6 : Grid Bool :=
  ⟨6, 6, List.replicate 12 false ++
    [false, false, true, true, false, false] ++
    [false, false, true, true, false, false] ++
    List.replicate 12 false⟩

lemma count_step (g : Grid Bool) (x y : Nat) (nx : Int) (c : Nat) (ny : Int) :
    (if nx = (x : Int) ∧ ny = (y : Int) then c
     else if nx < 0 ∨ ny < 0 ∨ nx ≥ (g.width : Int) ∨ ny ≥ (g.height : Int) then c
     else if Grid.get g nx.toNat ny.toNat = false then c
     else c + 1)
    = c + neighbor_indicator g x y nx ny := by
  simp only [neighbor_indicator]
  split_ifs <;> omega

lemma neighbor_indicator_eq (g : Grid Bool) (x y : Nat) (dx dy nx ny : Int)
    (hx : nx = (x : Int) + dx) (hy : ny = (y : Int) + dy)
    (hne : ¬(nx = (x : Int) ∧ ny = (y : Int))) :
    neighbor_indicator g x y nx ny
      = if contributing g x y (dx, dy) = true then 1 else 0 := by
  subst hx hy
  simp only [neighbor_indicator, contributing]
  split_ifs <;> simp_all

lemma count_neighbors_eq_contributing (g : Grid Bool) (x y : Nat) :
    count_neighbors g x y = (contributing_offsets g x y).length := by
  have h1 := neighbor_indicator_eq g x y (-1) (-1) ((x : Int) - 1) ((y : Int) - 1)
    (by omega) (by omega) (by omega)
  have h2 := neighbor_indicator_eq g x y (-1) 0 ((x : Int) - 1) (y : Int)
    (by omega) (by omega) (by omega)
  have h3 := neighbor_indicator_eq g x y (-1) 1 ((x : Int) - 1) ((y : Int) + 1)
    (by omega) (by omega) (by omega)
  have h4 := neighbor_indicator_eq g x y 0 (-1) (x : Int) ((y : Int) - 1)
    (by omega) (by omega) (by omega)
  have h5 := neighbor_indicator_eq g x y 0 1 (x : Int) ((y : Int) + 1)
    (by omega) (by omega) (by omega)
  have h6 := neighbor_indicator_eq g x y 1 (-1) ((x : Int) + 1) ((y : Int) - 1)
    (by omega) (by omega) (by omega)
  have h7 := neighbor_indicator_eq g x y 1 0 ((x : Int) + 1) (y : Int)
    (by omega) (by omega) (by omega)
  have h8 := neighbor_indicator_eq g x y 1 1 ((x : Int) + 1) ((y : Int) + 1)
    (by omega) (by omega) (by omega)
  have hc : neighbor_indicator g x y (x : Int) (y : Int) = 0 := by
    simp [neighbor_indicator]
  simp only [count_neighbors, count_step]
  simp only [List.foldl_cons, List.foldl_nil]
  rw [h1, h2, h3, h4, h5, h6, h7, h8, hc]
  simp only [contributing_offsets, moore_offsets, ← List.countP_eq_length_filter,
    List.countP_cons, List.countP_nil]
  split_ifs <;> omega

lemma grid_idx_ne {W a b x y : Nat} (ha : a < W) (hx : x < W)
    (hne : ¬(x = a ∧ y = b)) : a + b * W ≠ x + y * W := by
  intro h
  rcases Nat.lt_trichotomy b y with hby | hby | hby
  · have h2 : (b + 1) * W ≤ y * W := Nat.mul_le_mul_right W hby
    rw [Nat.succ_mul] at h2
    omega
  · subst hby
    omega
  · have h2 : (y + 1) * W ≤ b * W := Nat.mul_le_mul_right W hby
    rw [Nat.succ_mul] at h2
    omega

lemma grid_idx_lt {W H x y : Nat} (hx : x < W) (hy : y < H) : x + y * W < W * H := by
  have h2 : (y + 1) * W ≤ H * W := Nat.mul_le_mul_right W hy
  rw [Nat.succ_mul] at h2
  rw [Nat.mul_comm W H]
  omega

lemma Grid.width_set (g : Grid α) (x y : Nat) (v : α) : (g.set x y v).width = g.width := rfl

lemma Grid.height_set (g : Grid α) (x y : Nat) (v : α) : (g.set x y v).height = g.height := rfl

lemma Grid.length_set (g : Grid α) (x y : Nat) (v : α) :
    (g.set x y v).cells.length = g.cells.length := by
  simp [Grid.set]

lemma Grid.get_set_self [Inhabited α] (g : Grid α) (x y : Nat) (v : α)
    (hx : x < g.width) (hy : y < g.height) (hwf : g.WF) :
    (g.set x y v).get x y = v := by
  simp only [Grid.get, Grid.set, List.getD_eq_getElem?_getD]
  rw [List.getElem?_set_self]
  · rfl
  · rw [hwf]
    exact grid_idx_lt hx hy

lemma Grid.get_set_ne [Inhabited α] (g : Grid α) (a b x y : Nat) (v : α)
    (hx : x < g.width) (ha : a < g.width) (hne : ¬(x = a ∧ y = b)) :
    (g.set a b v).get x y = g.get x y := by
  simp only [Grid.get, Grid.set, List.getD_eq_getElem?_getD]
  rw [List.getElem?_set_ne (grid_idx_ne ha hx hne)]

lemma col_loop_spec [Inhabited α] (f : Nat → Nat → α) (x : Nat) (n : Nat) :
    ∀ (acc : Grid α),
      (((List.range n).foldl (fun acc y => Grid.set acc x y (f x y)) acc).width = acc.width ∧
       ((List.range n).foldl (fun acc y => Grid.set acc x y (f x y)) acc).height = acc.height ∧
       ((List.range n).foldl (fun acc y => Grid.set acc x y (f x y)) acc).cells.length
         = acc.cells.length) ∧
      (∀ x' y', x' < acc.width → x < acc.width → acc.WF → n ≤ acc.height →
        Grid.get ((List.range n).foldl (fun acc y => Grid.set acc x y (f x y)) acc) x' y'
          = if x' = x ∧ y' < n then f x' y' else Grid.get acc x' y') := by
  induction n with
  | zero =>
    intro acc
    refine ⟨⟨rfl, rfl, rfl⟩, ?_⟩
    intro x' y' _ _ _ _
    simp
  | succ n ih =>
    intro acc
    rcases ih acc with ⟨⟨ihw, ihh, ihl⟩, ihget⟩
    constructor
    · refine ⟨?_, ?_, ?_⟩ <;>
        simp [List.range_succ, List.foldl_append, Grid.width_set, Grid.height_set,
          Grid.length_set, ihw, ihh, ihl]
    · intro x' y' hx' hxw hwf hn
      have hfold_wf :
          ((List.range n).foldl (fun acc y => Grid.set acc x y (f x y)) acc).WF := by
        unfold Grid.WF
        rw [ihl, ihw, ihh]
        exact hwf
      simp only [List.range_succ, List.foldl_append, List.foldl_cons, List.foldl_nil]
      by_cases hc : x' = x ∧ y' = n
      · rcases hc with ⟨rfl, rfl⟩
        rw [Grid.get_set_self _ _ _ _ (by rw [ihw]; exact hxw) (by rw [ihh]; omega) hfold_wf]
        simp
      · rw [Grid.get_set_ne _ _ _ _ _ _ (by rw [ihw]; exact hx') (by rw [ihw]; exact hxw) hc]
        rw [ihget x' y' hx' hxw hwf (by omega)]
        split_ifs <;> first | rfl | omega

lemma set_loop_spec [Inhabited α] (f : Nat → Nat → α) (H : Nat) (n : Nat) :
    ∀ (acc : Grid α),
      (((List.range n).foldl (fun acc x =>
          (List.range H).foldl (fun acc y => Grid.set acc x y (f x y)) acc) acc).width
            = acc.width ∧
       ((List.range n).foldl (fun acc x =>
          (List.range H).foldl (fun acc y => Grid.set acc x y (f x y)) acc) acc).height
            = acc.height ∧
       ((List.range n).foldl (fun acc x =>
          (List.range H).foldl (fun acc y => Grid.set acc x y (f x y)) acc) acc).cells.length
            = acc.cells.length) ∧
      (∀ x y, x < acc.width → acc.WF → n ≤ acc.width → H ≤ acc.height →
        Grid.get ((List.range n).foldl (fun acc x =>
          (List.range H).foldl (fun acc y => Grid.set acc x y (f x y)) acc) acc) x y
          = if x < n ∧ y < H then f x y else Grid.get acc x y) := by
  induction n with
  | zero =>
    intro acc
    refine ⟨⟨rfl, rfl, rfl⟩, ?_⟩
    intro x y _ _ _ _
    simp
  | succ n ih =>
    intro acc
    rcases ih acc with ⟨⟨ihw, ihh, ihl⟩, ihget⟩
    rcases col_loop_spec f n H ((List.range n).foldl (fun acc x =>
      (List.range H).foldl (fun acc y => Grid.set acc x y (f x y)) acc) acc) with
      ⟨⟨cw, ch, cl⟩, cget⟩
    constructor
    · refine ⟨?_, ?_, ?_⟩ <;>
        simp [List.range_succ, List.foldl_append, cw, ch, cl, ihw, ihh, ihl]
    · intro x y hx hwf hn hH
      have hfold_wf :
          ((List.range n).foldl (fun acc x =>
            (List.range H).foldl (fun acc y => Grid.set acc x y (f x y)) acc) acc).WF := by
        unfold Grid.WF
        rw [ihl, ihw, ihh]
        exact hwf
      simp only [List.range_succ, List.foldl_append, List.foldl_cons, List.foldl_nil]
      rw [cget x y (by rw [ihw]; exact hx) (by rw [ihw]; omega) hfold_wf (by rw [ihh]; exact hH)]
      rw [ihget x y hx hwf (by omega) hH]
      split_ifs <;> first | rfl | omega

lemma set_loop_get [Inhabited α] (base : Grid α) (f : Nat → Nat → α) (x y : Nat)
    (hx : x < base.width) (hy : y < base.height) (hwf : base.WF) :
    Grid.get (set_loop base f) x y = f x y := by
  have h := (set_loop_spec f base.height base.width base).2 x y hx hwf le_rfl le_rfl
  unfold set_loop
  rw [h, if_pos ⟨hx, hy⟩]

lemma set_loop_dims [Inhabited α] (base : Grid α) (f : Nat → Nat → α) :
    (set_loop base f).width = base.width ∧ (set_loop base f).height = base.height := by
  have h := (set_loop_spec f base.height base.width base).1
  exact ⟨h.1, h.2.1⟩

lemma draw_pixels_eq_set_loop (pixels left right : Grid Bool) (split_index : Nat) :
    draw_pixels pixels left right split_index
      = set_loop pixels (fun x y =>
          decide (x = split_index) || Grid.get (if x < split_index then left else right) x y) :=
  rfl

lemma draw_luma_eq_set_loop (luma left right : Grid Nat) (split_tile : Nat) :
    draw_luma luma left right split_tile
      = set_loop luma (fun x y =>
          luma_scale (max 48 (Grid.get (if x < split_tile then left else right) x y))) :=
  rfl

lemma luma_cell_fst (g : Grid Nat) (a b : Nat) (p : Grid Nat × List Int) :
    (luma_cell g a b p).1
      = Grid.set p.1 a b (clamp_to_byte ((↑(Grid.get g a b) : Int) + p.2.headD 0)) := rfl

lemma luma_cell_fst_width (g : Grid Nat) (a b : Nat) (p : Grid Nat × List Int) :
    (luma_cell g a b p).1.width = p.1.width := rfl

lemma luma_cell_fst_height (g : Grid Nat) (a b : Nat) (p : Grid Nat × List Int) :
    (luma_cell g a b p).1.height = p.1.height := rfl

lemma luma_cell_fst_length (g : Grid Nat) (a b : Nat) (p : Grid Nat × List Int) :
    (luma_cell g a b p).1.cells.length = p.1.cells.length := by
  rw [luma_cell_fst, Grid.length_set]

lemma luma_row_spec (g : Grid Nat) (wx yy : Nat) (w : Nat) :
    ∀ (acc : Grid Nat × List Int),
      (((List.range w).foldl (fun acc inner_x =>
          luma_cell g (wx + inner_x) yy acc) acc).1.width = acc.1.width ∧
       ((List.range w).foldl (fun acc inner_x =>
          luma_cell g (wx + inner_x) yy acc) acc).1.height = acc.1.height ∧
       ((List.range w).foldl (fun acc inner_x =>
          luma_cell g (wx + inner_x) yy acc) acc).1.cells.length = acc.1.cells.length) ∧
      (∀ x y, x < acc.1.width → wx + w ≤ acc.1.width →
        (x < wx ∨ wx + w ≤ x ∨ y ≠ yy) →
        Grid.get ((List.range w).foldl (fun acc inner_x =>
          luma_cell g (wx + inner_x) yy acc) acc).1 x y = Grid.get acc.1 x y) := by
  induction w with
  | zero =>
    intro acc
    refine ⟨⟨rfl, rfl, rfl⟩, ?_⟩
    intro x y _ _ _
    simp
  | succ w ih =>
    intro acc
    rcases ih acc with ⟨⟨ihw, ihh, ihl⟩, ihget⟩
    constructor
    · refine ⟨?_, ?_, ?_⟩ <;>
        simp [List.range_succ, List.foldl_append, luma_cell_fst_width,
          luma_cell_fst_height, luma_cell_fst_length, ihw, ihh, ihl]
    · intro x y hx hwin hout
      simp only [List.range_succ, List.foldl_append, List.foldl_cons, List.foldl_nil,
        luma_cell_fst]
      rw [Grid.get_set_ne _ _ _ _ _ _ (by rw [ihw]; exact hx) (by rw [ihw]; omega)
        (by omega)]
      exact ihget x y hx (by omega) (by omega)

lemma luma_outer_spec (g : Grid Nat) (wx wy w : Nat) (h : Nat) :
    ∀ (acc : Grid Nat × List Int),
      (((List.range h).foldl (fun acc inner_y =>
          (List.range w).foldl (fun acc inner_x =>
            luma_cell g (wx + inner_x) (wy + inner_y) acc) acc) acc).1.width
            = acc.1.width ∧
       ((List.range h).foldl (fun acc inner_y =>
          (List.range w).foldl (fun acc inner_x =>
            luma_cell g (wx + inner_x) (wy + inner_y) acc) acc) acc).1.height
            = acc.1.height ∧
       ((List.range h).foldl (fun acc inner_y =>
          (List.range w).foldl (fun acc inner_x =>
            luma_cell g (wx + inner_x) (wy + inner_y) acc) acc) acc).1.cells.length
            = acc.1.cells.length) ∧
      (∀ x y, x < acc.1.width → wx + w ≤ acc.1.width →
        (x < wx ∨ wx + w ≤ x ∨ y < wy ∨ wy + h ≤ y) →
        Grid.get (((List.range h).foldl (fun acc inner_y =>
          (List.range w).foldl (fun acc inner_x =>
            luma_cell g (wx + inner_x) (wy + inner_y) acc) acc) acc)).1 x y
          = Grid.get acc.1 x y) := by
  induction h with
  | zero =>
    intro acc
    refine ⟨⟨rfl, rfl, rfl⟩, ?_⟩
    intro x y _ _ _
    simp
  | succ h ih =>
    intro acc
    rcases ih acc with ⟨⟨ihw, ihh, ihl⟩, ihget⟩
    rcases luma_row_spec g wx (wy + h) w ((List.range h).foldl (fun acc inner_y =>
      (List.range w).foldl (fun acc inner_x =>
        luma_cell g (wx + inner_x) (wy + inner_y) acc) acc) acc) with
      ⟨⟨rw_, rh, rl⟩, rget⟩
    constructor
    · refine ⟨?_, ?_, ?_⟩ <;>
        simp [List.range_succ, List.foldl_append, rw_, rh, rl, ihw, ihh, ihl]
    · intro x y hx hwin hout
      simp only [List.range_succ, List.foldl_append, List.foldl_cons, List.foldl_nil]
      rw [rget x y (by rw [ihw]; exact hx) (by rw [ihw]; exact hwin) (by omega)]
      exact ihget x y hx hwin (by omega)

lemma divider_run_upto (W : Nat) :
    ∀ k, k ≤ W → (divider_tick W)^[k] ⟨0, 1, 0⟩ = ⟨k, 1, 0⟩ := by
  intro k
  induction k with
  | zero => intro _; rfl
  | succ k ih =>
    intro hk
    rw [Function.iterate_succ_apply', ih (by omega)]
    have hkW : k ≠ W := by omega
    simp [divider_tick, hkW, DividerState.mk.injEq]
    omega

lemma gnc_fold_subset (draws : List Int) (S : Finset Int) :
    ∀ (n : Nat) (acc : Finset Int), acc ⊆ S → (∀ i, i < n → draws.getD i 0 ∈ S) →
      ((List.range n).foldl (fun result i => insert (draws.getD i 0) result) acc) ⊆ S := by
  intro n
  induction n with
  | zero =>
    intro acc hacc _
    simpa using hacc
  | succ n ih =>
    intro acc hacc hd
    simp only [List.range_succ, List.foldl_append, List.foldl_cons, List.foldl_nil]
    exact Finset.insert_subset (hd n (by omega)) (ih acc hacc (fun i hi => hd i (by omega)))

lemma gnc_nonempty (count : Nat) (draws : List Int) (h : 1 ≤ count) :
    (generate_neighbor_counts count draws).Nonempty := by
  obtain ⟨k, rfl⟩ : ∃ k, count = k + 1 := ⟨count - 1, by omega⟩
  simp only [generate_neighbor_counts, List.range_succ, List.foldl_append,
    List.foldl_cons, List.foldl_nil]
  exact Finset.insert_nonempty _ _

lemma gnc_subset (count : Nat) (draws : List Int)
    (hd : ∀ d ∈ draws, 0 ≤ d ∧ d ≤ (count : Int)) :
    generate_neighbor_counts count draws ⊆ Finset.Icc 0 (count : Int) := by
  apply gnc_fold_subset
  · exact Finset.empty_subset _
  · intro i _
    rcases Nat.lt_or_ge i draws.length with hl | hl
    · have hmem : draws.getD i 0 ∈ draws := by
        rw [List.getD_eq_getElem?_getD, List.getElem?_eq_getElem hl]
        exact List.getElem_mem hl
      have := hd _ hmem
      rw [Finset.mem_Icc]
      exact this
    · rw [List.getD_eq_getElem?_getD, List.getElem?_eq_none hl]
      simp

lemma contributing_eq_false (g : Grid Bool) (x y : Nat) (dx dy : Int)
    (h : (x : Int) + dx < 0 ∨ (y : Int) + dy < 0 ∨
      (x : Int) + dx ≥ (g.width : Int) ∨ (y : Int) + dy ≥ (g.height : Int)) :
    contributing g x y (dx, dy) = false := by
  simp only [contributing]
  rw [decide_eq_true h]
  rfl

lemma count_neighbors_corner (g : Grid Bool) (x y : Nat)
    (hx : x = 0 ∨ x + 1 = g.width) (hy : y = 0 ∨ y + 1 = g.height) :
    count_neighbors g x y ≤ 3 := by
  rw [count_neighbors_eq_contributing]
  rcases hx with hx | hx <;> rcases hy with hy | hy
  · have f1 := contributing_eq_false g x y (-1) (-1) (by omega)
    have f2 := contributing_eq_false g x y (-1) 0 (by omega)
    have f3 := contributing_eq_false g x y (-1) 1 (by omega)
    have f4 := contributing_eq_false g x y 0 (-1) (by omega)
    have f5 := contributing_eq_false g x y 1 (-1) (by omega)
    simp only [contributing_offsets, moore_offsets, ← List.countP_eq_length_filter,
      List.countP_cons, List.countP_nil, f1, f2, f3, f4, f5, Bool.false_eq_true, if_false]
    split_ifs <;> omega
  · have f1 := contributing_eq_false g x y (-1) (-1) (by omega)
    have f2 := contributing_eq_false g x y (-1) 0 (by omega)
    have f3 := contributing_eq_false g x y (-1) 1 (by omega)
    have f4 := contributing_eq_false g x y 0 1 (by omega)
    have f5 := contributing_eq_false g x y 1 1 (by omega)
    simp only [contributing_offsets, moore_offsets, ← List.countP_eq_length_filter,
      List.countP_cons, List.countP_nil, f1, f2, f3, f4, f5, Bool.false_eq_true, if_false]
    split_ifs <;> omega
  · have f1 := contributing_eq_false g x y 1 (-1) (by omega)
    have f2 := contributing_eq_false g x y 1 0 (by omega)
    have f3 := contributing_eq_false g x y 1 1 (by omega)
    have f4 := contributing_eq_false g x y (-1) (-1) (by omega)
    have f5 := contributing_eq_false g x y 0 (-1) (by omega)
    simp only [contributing_offsets, moore_offsets, ← List.countP_eq_length_filter,
      List.countP_cons, List.countP_nil, f1, f2, f3, f4, f5, Bool.false_eq_true, if_false]
    split_ifs <;> omega
  · have f1 := contributing_eq_false g x y 1 (-1) (by omega)
    have f2 := contributing_eq_false g x y 1 0 (by omega)
    have f3 := contributing_eq_false g x y 1 1 (by omega)
    have f4 := contributing_eq_false g x y (-1) 1 (by omega)
    have f5 := contributing_eq_false g x y 0 1 (by omega)
    simp only [contributing_offsets, moore_offsets, ← List.countP_eq_length_filter,
      List.countP_cons, List.countP_nil, f1, f2, f3, f4, f5, Bool.false_eq_true, if_false]
    split_ifs <;> omega

lemma contributing_set_self (g : Grid Bool) (x y : Nat) (v : Bool) (hx : x < g.width) :
    ∀ d ∈ moore_offsets, contributing (Grid.set g x y v) x y d = contributing g x y d := by
  intro d hd
  simp only [moore_offsets, List.mem_cons, List.not_mem_nil, or_false] at hd
  simp only [contributing, Grid.width_set, Grid.height_set]
  by_cases hout : ((x : Int) + d.1 < 0 ∨ (y : Int) + d.2 < 0 ∨
      (x : Int) + d.1 ≥ (g.width : Int) ∨ (y : Int) + d.2 ≥ (g.height : Int))
  · rw [decide_eq_true hout]
    rfl
  · push_neg at hout
    rw [Grid.get_set_ne _ _ _ _ _ _ (by omega) hx ?_]
    rcases hd with rfl | rfl | rfl | rfl | rfl | rfl | rfl | rfl <;>
      simp only [Prod.fst, Prod.snd] <;> omega

lemma count_neighbors_set_self (g : Grid Bool) (x y : Nat) (v : Bool) (hx : x < g.width) :
    count_neighbors (Grid.set g x y v) x y = count_neighbors g x y := by
  rw [count_neighbors_eq_contributing, count_neighbors_eq_contributing]
  unfold contributing_offsets
  congr 1
  exact List.filter_congr (contributing_set_self g x y v hx)

/-- C1: for every grid and in-bounds cell `(x, y)`, the neighbor count used by
the stepper equals the number of the eight Moore offsets that land inside the
grid (no wraparound, no virtual border) on a live cell, the cell itself
excluded; and a corner cell sees at most 3 contributing offsets, never 8. -/
theorem claim_C1_moore_neighbor_count (g : Grid Bool) (x y : Nat)
    (hx : x < g.width) (hy : y < g.height) :
    count_neighbors g x y = (contributing_offsets g x y).length ∧
    ((x = 0 ∨ x + 1 = g.width) → (y = 0 ∨ y + 1 = g.height) →
      count_neighbors g x y ≤ 3) :=
  ⟨count_neighbors_eq_contributing g x y,
   fun hcx hcy => count_neighbors_corner g x y hcx hcy⟩

/-- Witness for C1: the all-live 3x3 grid at corner `(0, 0)`. -/
theorem claim_C1_witness :
    ((0 : Nat) < (⟨3, 3, List.replicate 9 true⟩ : Grid Bool).width ∧
     (0 : Nat) < (⟨3, 3, List.replicate 9 true⟩ : Grid Bool).height) ∧
    (count_neighbors ⟨3, 3, List.replicate 9 true⟩ 0 0
        = (contributing_offsets ⟨3, 3, List.replicate 9 true⟩ 0 0).length ∧
     ((0 = 0 ∨ 0 + 1 = (⟨3, 3, List.replicate 9 true⟩ : Grid Bool).width) →
      (0 = 0 ∨ 0 + 1 = (⟨3, 3, List.replicate 9 true⟩ : Grid Bool).height) →
      count_neighbors ⟨3, 3, List.replicate 9 true⟩ 0 0 ≤ 3)) :=
  ⟨⟨by decide, by decide⟩,
   claim_C1_moore_neighbor_count ⟨3, 3, List.replicate 9 true⟩ 0 0 (by decide) (by decide)⟩

/-- C2 counterexample: `Game::step` is not a deterministic function of the
state alone: from one and the same state, the run where the 1-in-10 luma draw
fires (and perturbs cell `(0, 0)` by `+64`) produces a different next state
than the run where it does not fire. -/
theorem claim_C2_counterexample :
    step ⟨⟨1, 1, [false]⟩, ⟨1, 1, [0]⟩⟩ true 0 0 1 1 [64]
      ≠ step ⟨⟨1, 1, [false]⟩, ⟨1, 1, [0]⟩⟩ false 0 0 1 1 [64] := by
  decide

/-- C2 amended: only the pixel-field component of `Game::step` is a pure
deterministic function of the state: it equals `field_iteration` of the old
field whatever the random draws are, while the luma component is left
untouched exactly when the 1-in-10 draw does not fire (and is perturbed by
the random window otherwise, as the counterexample shows). -/
theorem claim_C2_field_deterministic (game : Game) (d1 d2 : Bool)
    (wx1 wy1 w1 h1 wx2 wy2 w2 h2 : Nat) (ds1 ds2 : List Int) :
    (step game d1 wx1 wy1 w1 h1 ds1).field = (step game d2 wx2 wy2 w2 h2 ds2).field ∧
    (step game d1 wx1 wy1 w1 h1 ds1).field = field_iteration game.field ∧
    (step game false wx1 wy1 w1 h1 ds1).luma = game.luma :=
  ⟨rfl, rfl, rfl⟩

/-- C3: under the Game-of-Life transition (which is the same function in
`Game::field_iteration` and in `Rules::game_of_life`), a single isolated live
cell dies after one step, and a 2x2 block is a still life: it is unchanged
after one step and hence after 5 consecutive steps. -/
theorem claim_C3_gol_textbook :
    (∀ (old_state : Bool) (n : Nat),
      field_new_state old_state n = game_of_life_next_state old_state (n : Int)) ∧
    field_iteration single_live_5 = dead_5 ∧
    field_iteration block_6 = block_6 ∧
    field_iteration^[5] block_6 = block_6 := by
  refine ⟨?_, by decide, by decide, by decide⟩
  intro old_state n
  simp only [field_new_state, game_of_life_next_state]
  rw [decide_eq_decide]
  cases old_state <;> simp <;> omega

/-- C4 counterexample: on a width-3 display, after exactly 3 ticks from index
0 with velocity +1 the divider has fired no swap/reseed event at all and the
index sits at 3, not 0: the loop checks the edge before advancing, so the
swap fires only on tick 4. -/
theorem claim_C4_counterexample :
    ((divider_tick 3)^[3] ⟨0, 1, 0⟩).swaps = 0 ∧
    ((divider_tick 3)^[3] ⟨0, 1, 0⟩).split_pixel = 3 := by
  decide

/-- C4 amended: starting at index 0 with velocity +1 on width W, after exactly
W ticks no swap has fired and the index is W; the single swap/reseed event
fires on tick W+1, which resets the index to 0 and then advances it to 1 in
the same tick (so the index is never W+1 or negative). -/
theorem claim_C4_divider_cycle (W : Nat) (hW : 1 ≤ W) :
    (divider_tick W)^[W] ⟨0, 1, 0⟩ = ⟨W, 1, 0⟩ ∧
    (divider_tick W)^[W + 1] ⟨0, 1, 0⟩ = ⟨1, 1, 1⟩ := by
  have hrun := divider_run_upto W W le_rfl
  refine ⟨hrun, ?_⟩
  rw [Function.iterate_succ_apply', hrun]
  simp [divider_tick, DividerState.mk.injEq]
  omega

/-- Witness for C4 at width 3. -/
theorem claim_C4_witness :
    1 ≤ 3 ∧
    ((divider_tick 3)^[3] ⟨0, 1, 0⟩ = ⟨3, 1, 0⟩ ∧
     (divider_tick 3)^[3 + 1] ⟨0, 1, 0⟩ = ⟨1, 1, 1⟩) :=
  ⟨by decide, claim_C4_divider_cycle 3 (by decide)⟩

/-- C5: the pixel-channel merge takes the left grid's column for `x` below the
divider index, the right grid's column above it, and forces the divider column
itself to true; in particular the width-10 example with divider 4, left all
dead and right all alive yields columns 0-3 dead, column 4 alive (forced) and
columns 5-9 alive. -/
theorem claim_C5_draw_pixels (pixels left right : Grid Bool) (d x y : Nat)
    (hx : x < pixels.width) (hy : y < pixels.height) (hwf : pixels.WF) :
    Grid.get (draw_pixels pixels left right d) x y
      = (if x = d then true
         else if x < d then Grid.get left x y else Grid.get right x y) ∧
    draw_pixels ⟨10, 1, List.replicate 10 false⟩ ⟨10, 1, List.replicate 10 false⟩
        ⟨10, 1, List.replicate 10 true⟩ 4
      = ⟨10, 1, [false, false, false, false, true, true, true, true, true, true]⟩ := by
  constructor
  · rw [draw_pixels_eq_set_loop, set_loop_get _ _ _ _ hx hy hwf]
    by_cases hxd : x = d
    · simp [hxd]
    · by_cases hlt : x < d <;> simp [hxd, hlt]
  · decide

/-- Witness for C5: the width-10 scenario observed at cell `(7, 0)`. -/
theorem claim_C5_witness :
    ((7 : Nat) < (⟨10, 1, List.replicate 10 false⟩ : Grid Bool).width ∧
     (0 : Nat) < (⟨10, 1, List.replicate 10 false⟩ : Grid Bool).height ∧
     Grid.WF (⟨10, 1, List.replicate 10 false⟩ : Grid Bool)) ∧
    (Grid.get (draw_pixels ⟨10, 1, List.replicate 10 false⟩
        ⟨10, 1, List.replicate 10 false⟩ ⟨10, 1, List.replicate 10 true⟩ 4) 7 0
      = (if 7 = 4 then true
         else if 7 < 4 then Grid.get (⟨10, 1, List.replicate 10 false⟩ : Grid Bool) 7 0
         else Grid.get (⟨10, 1, List.replicate 10 true⟩ : Grid Bool) 7 0) ∧
     draw_pixels ⟨10, 1, List.replicate 10 false⟩ ⟨10, 1, List.replicate 10 false⟩
        ⟨10, 1, List.replicate 10 true⟩ 4
      = ⟨10, 1, [false, false, false, false, true, true, true, true, true, true]⟩) :=
  ⟨⟨by decide, by decide, by decide⟩,
   claim_C5_draw_pixels ⟨10, 1, List.replicate 10 false⟩ ⟨10, 1, List.replicate 10 false⟩
     ⟨10, 1, List.replicate 10 true⟩ 4 7 0 (by decide) (by decide) (by decide)⟩

/-- C6 counterexample: the divider tile column is not forced to the saturating
maximum byte value: with the right grid all zero and the divider at tile
column 0, the output at the divider column is `(max 48 0) * 12 / 255 = 2`,
which is neither 255 nor even the maximal brightness 12. -/
theorem claim_C6_counterexample :
    Grid.get (draw_luma ⟨1, 1, [0]⟩ ⟨1, 1, [255]⟩ ⟨1, 1, [0]⟩ (0 / 8)) 0 0 = 2 ∧
    (2 : Nat) ≠ 255 := by
  constructor
  · decide
  · decide

/-- C6 amended: the byte channel merges at tile column `divider_index / 8`
with the same left/right split as the pixel channel (`x` below the tile index
reads the left grid, `x` at or above it reads the right grid, so the divider
tile column itself takes the right grid's value); no column is forced to a
sentinel value, every written cell being `max 48` of the source value scaled
by `* 12 / 255`. -/
theorem claim_C6_draw_luma (luma left right : Grid Nat) (d x y : Nat)
    (hx : x < luma.width) (hy : y < luma.height) (hwf : luma.WF) :
    Grid.get (draw_luma luma left right (d / 8)) x y
      = luma_scale (max 48 (Grid.get (if x < d / 8 then left else right) x y)) := by
  rw [draw_luma_eq_set_loop, set_loop_get _ _ _ _ hx hy hwf]

/-- Witness for C6: a 2x1 brightness buffer with divider pixel index 8
(tile column 1), observed at the divider tile column itself. -/
theorem claim_C6_witness :
    ((1 : Nat) < (⟨2, 1, [0, 0]⟩ : Grid Nat).width ∧
     (0 : Nat) < (⟨2, 1, [0, 0]⟩ : Grid Nat).height ∧
     Grid.WF (⟨2, 1, [0, 0]⟩ : Grid Nat)) ∧
    Grid.get (draw_luma ⟨2, 1, [0, 0]⟩ ⟨2, 1, [255, 255]⟩ ⟨2, 1, [60, 60]⟩ (8 / 8)) 1 0
      = luma_scale (max 48 (Grid.get
          (if 1 < 8 / 8 then (⟨2, 1, [255, 255]⟩ : Grid Nat) else ⟨2, 1, [60, 60]⟩) 1 0)) :=
  ⟨⟨by decide, by decide, by decide⟩,
   claim_C6_draw_luma ⟨2, 1, [0, 0]⟩ ⟨2, 1, [255, 255]⟩ ⟨2, 1, [60, 60]⟩ 8 1 0
     (by decide) (by decide) (by decide)⟩

/-- C7 counterexample: the boolean-state birth set can contain 0: with the
set-size draw 1 (valid for either kernel) and the single element draw 0
(valid for `gen_range(0..=1)`), the synthesized birth set is `{0}`. -/
theorem claim_C7_counterexample :
    (0 : Int) ∈ (generate_bb3 true 1 1 [0] [0]).birth ∧
    1 ≤ max_neighbors true ∧ (∀ d ∈ [(0 : Int)], 0 ≤ d ∧ d ≤ 1) := by
  refine ⟨by decide, by decide, by decide⟩

/-- C7 amended: for every valid draw sequence, the birth and survival sets
produced by the boolean rule synthesizer are non-empty sets of distinct
integers within `[0, max_neighbors]` of the chosen kernel (8 for Moore, 4 for
von Neumann); the birth set may however contain 0, since the element draws
range over `0..=count` (see the counterexample). -/
theorem claim_C7_synth_sets (is_moore : Bool) (bc sc : Nat) (bd sd : List Int)
    (hbc : 1 ≤ bc ∧ bc ≤ max_neighbors is_moore)
    (hsc : 1 ≤ sc ∧ sc ≤ max_neighbors is_moore)
    (hbd : ∀ d ∈ bd, 0 ≤ d ∧ d ≤ (bc : Int))
    (hsd : ∀ d ∈ sd, 0 ≤ d ∧ d ≤ (sc : Int)) :
    (generate_bb3 is_moore bc sc bd sd).birth.Nonempty ∧
    (generate_bb3 is_moore bc sc bd sd).birth
      ⊆ Finset.Icc 0 (max_neighbors is_moore : Int) ∧
    (generate_bb3 is_moore bc sc bd sd).survive.Nonempty ∧
    (generate_bb3 is_moore bc sc bd sd).survive
      ⊆ Finset.Icc 0 (max_neighbors is_moore : Int) := by
  refine ⟨gnc_nonempty _ _ hbc.1, ?_, gnc_nonempty _ _ hsc.1, ?_⟩
  · exact (gnc_subset bc bd hbd).trans
      (Finset.Icc_subset_Icc le_rfl (by exact_mod_cast hbc.2))
  · exact (gnc_subset sc sd hsd).trans
      (Finset.Icc_subset_Icc le_rfl (by exact_mod_cast hsc.2))

/-- Witness for C7: Moore kernel, birth draws `[1, 2]` with size draw 2,
survival draw `[0]` with size draw 1. -/
theorem claim_C7_witness :
    ((1 ≤ 2 ∧ 2 ≤ max_neighbors true) ∧ (1 ≤ 1 ∧ 1 ≤ max_neighbors true) ∧
     (∀ d ∈ [(1 : Int), 2], 0 ≤ d ∧ d ≤ 2) ∧ (∀ d ∈ [(0 : Int)], 0 ≤ d ∧ d ≤ 1)) ∧
    ((generate_bb3 true 2 1 [1, 2] [0]).birth.Nonempty ∧
     (generate_bb3 true 2 1 [1, 2] [0]).birth ⊆ Finset.Icc 0 (max_neighbors true : Int) ∧
     (generate_bb3 true 2 1 [1, 2] [0]).survive.Nonempty ∧
     (generate_bb3 true 2 1 [1, 2] [0]).survive ⊆ Finset.Icc 0 (max_neighbors true : Int)) :=
  ⟨⟨⟨by decide, by decide⟩, ⟨by decide, by decide⟩, by decide, by decide⟩,
   claim_C7_synth_sets true 2 1 [1, 2] [0] ⟨by decide, by decide⟩ ⟨by decide, by decide⟩
     (by decide) (by decide)⟩

/-- C8 counterexample: not every kernel constant has a false center weight:
the diagonals-only kernel (used by the equalizer rule) has center `true`. -/
theorem claim_C8_counterexample :
    kernel_center DIAGONALS_NEIGHBORHOOD = true := by
  decide

/-- C8 amended: the Moore and von Neumann kernel constants have center weight
false; the diagonals-only kernel's center weight is true (so a kernel-driven
count would include the cell's own state there); the hardcoded
`Game::count_neighbors` skips the center explicitly, so its count never
depends on the cell's own state. -/
theorem claim_C8_kernel_centers (g : Grid Bool) (x y : Nat) (v : Bool)
    (hx : x < g.width) :
    kernel_center MOORE_NEIGHBORHOOD = false ∧
    kernel_center NEUMANN_NEIGHBORHOOD = false ∧
    kernel_center DIAGONALS_NEIGHBORHOOD = true ∧
    count_neighbors (Grid.set g x y v) x y = count_neighbors g x y :=
  ⟨by decide, by decide, by decide, count_neighbors_set_self g x y v hx⟩

/-- Witness for C8: flipping the center cell of a 2x2 grid does not change
its own neighbor count. -/
theorem claim_C8_witness :
    (0 : Nat) < (⟨2, 2, [true, false, false, true]⟩ : Grid Bool).width ∧
    (kernel_center MOORE_NEIGHBORHOOD = false ∧
     kernel_center NEUMANN_NEIGHBORHOOD = false ∧
     kernel_center DIAGONALS_NEIGHBORHOOD = true ∧
     count_neighbors (Grid.set ⟨2, 2, [true, false, false, true]⟩ 0 0 false) 0 0
       = count_neighbors ⟨2, 2, [true, false, false, true]⟩ 0 0) :=
  ⟨by decide, claim_C8_kernel_centers ⟨2, 2, [true, false, false, true]⟩ 0 0 false (by decide)⟩

/-- C9: the luma iteration changes only cells inside the chosen random window:
for a window within the grid, every in-bounds cell outside the window keeps
its previous value, and the grid's width and height are unchanged. -/
theorem claim_C9_luma_window (g : Grid Nat) (wx wy w h : Nat) (draws : List Int)
    (x y : Nat) (hx : x < g.width) (hy : y < g.height)
    (hwin : wx + w ≤ g.width ∧ wy + h ≤ g.height)
    (hout : x < wx ∨ wx + w ≤ x ∨ y < wy ∨ wy + h ≤ y) :
    (luma_iteration g wx wy w h draws).width = g.width ∧
    (luma_iteration g wx wy w h draws).height = g.height ∧
    Grid.get (luma_iteration g wx wy w h draws) x y = Grid.get g x y := by
  have hspec := luma_outer_spec g wx wy w h (g, draws)
  exact ⟨hspec.1.1, hspec.1.2.1, hspec.2 x y hx hwin.1 hout⟩

/-- Witness for C9: a 2x2 grid perturbed in the 1x1 window at the origin
leaves cell `(1, 1)` and the dimensions unchanged. -/
theorem claim_C9_witness :
    ((1 : Nat) < (⟨2, 2, [1, 2, 3, 4]⟩ : Grid Nat).width ∧
     (1 : Nat) < (⟨2, 2, [1, 2, 3, 4]⟩ : Grid Nat).height ∧
     (0 + 1 ≤ (⟨2, 2, [1, 2, 3, 4]⟩ : Grid Nat).width ∧
      0 + 1 ≤ (⟨2, 2, [1, 2, 3, 4]⟩ : Grid Nat).height) ∧
     ((1 : Nat) < 0 ∨ 0 + 1 ≤ 1 ∨ (1 : Nat) < 0 ∨ 0 + 1 ≤ 1)) ∧
    ((luma_iteration ⟨2, 2, [1, 2, 3, 4]⟩ 0 0 1 1 [64]).width
        = (⟨2, 2, [1, 2, 3, 4]⟩ : Grid Nat).width ∧
     (luma_iteration ⟨2, 2, [1, 2, 3, 4]⟩ 0 0 1 1 [64]).height
        = (⟨2, 2, [1, 2, 3, 4]⟩ : Grid Nat).height ∧
     Grid.get (luma_iteration ⟨2, 2, [1, 2, 3, 4]⟩ 0 0 1 1 [64]) 1 1
        = Grid.get (⟨2, 2, [1, 2, 3, 4]⟩ : Grid Nat) 1 1) :=
  ⟨⟨by decide, by decide, ⟨by decide, by decide⟩, by decide⟩,
   claim_C9_luma_window ⟨2, 2, [1, 2, 3, 4]⟩ 0 0 1 1 [64] 1 1 (by decide) (by decide)
     ⟨by decide, by decide⟩ (by decide)⟩

/-- C10: for every byte state and every neighbor count, Brian's Brain returns
one of exactly the three canonical values 0, 127, 255: alive (255) turns
dying (127), dying turns dead (0), dead with exactly 2 alive neighbors turns
alive, dead otherwise stays dead, and every non-canonical state collapses to
alive if above 127 and to dead otherwise. -/
theorem claim_C10_brians_brain (s : Nat) (n : Int) (hs : s < 256) :
    brians_brain_next_state s n ∈ ({0, 127, 255} : Finset Nat) ∧
    brians_brain_next_state 255 n = 127 ∧
    brians_brain_next_state 127 n = 0 ∧
    brians_brain_next_state 0 2 = 255 ∧
    (s = 0 → n ≠ 2 → brians_brain_next_state s n = 0) ∧
    (s ∉ ({0, 127, 255} : Finset Nat) →
      brians_brain_next_state s n = if s > 127 then 255 else 0) := by
  unfold brians_brain_next_state
  refine ⟨?_, by simp, by simp, by simp, ?_, ?_⟩
  · split_ifs <;> simp
  · intro h1 h2
    split_ifs <;> simp_all
  · intro hmem
    simp only [Finset.mem_insert, Finset.mem_singleton] at hmem
    push_neg at hmem
    split_ifs <;> first | rfl | omega

/-- Witness for C10: the non-canonical state 200 with 5 neighbors. -/
theorem claim_C10_witness :
    (200 : Nat) < 256 ∧
    (brians_brain_next_state 200 5 ∈ ({0, 127, 255} : Finset Nat) ∧
     brians_brain_next_state 255 5 = 127 ∧
     brians_brain_next_state 127 5 = 0 ∧
     brians_brain_next_state 0 2 = 255 ∧
     ((200 : Nat) = 0 → (5 : Int) ≠ 2 → brians_brain_next_state 200 5 = 0) ∧
     ((200 : Nat) ∉ ({0, 127, 255} : Finset Nat) →
       brians_brain_next_state 200 5 = if (200 : Nat) > 127 then 255 else 0)) :=
  ⟨by decide, claim_C10_brians_brain 200 5 (by decide)⟩

end SPLife
